import Mathlib

/-!
Verification of the plex-update script (src/plex-update.py) against its
specification.  The script's update pipeline is embedded shallowly:

* `PlatformSection` models one architecture section of the `info.ini`
  configuration file as read by `configparser` (each key may be absent).
* `Config` models the configuration object as an association list from
  section names (architectures) to sections.
* `PlexApiResponse` models the parsed JSON document returned by the Plex
  API endpoint, restricted to the fields the script reads
  (`computer.Linux.version` and `computer.Linux.releases`).
* `Env` models the external world of one run: whether the artifact
  download succeeds, the SHA1 digest computed for the downloaded file,
  whether the process runs as root, the answer to the sudo prompt, and
  the installer subprocess's exit code.
* `install_plex`, `check_and_perform_update` and `main_run` embed the
  functions of the same names (`main_run` is the part of `main` after a
  successful catalog fetch), with `sys.exit` made explicit in the result
  and the artifact file's presence after cleanup tracked as a Bool.
-/

/-- One architecture section of `info.ini` as `configparser` sees it:
each of the keys `checksum`, `url`, `version` may be present or absent. -/
structure PlatformSection where
  checksum : Option String
  url : Option String
  version : Option String
deriving DecidableEq

/-- The configuration object: an association list from section names
(architecture identifiers) to sections. -/
abbrev Config := List (String × PlatformSection)

/-- `config.has_section` / section lookup: the first binding for `arch`. -/
def getSection (c : Config) (arch : String) : Option PlatformSection :=
  match c with
  | [] => none
  | (a, s) :: rest => if a = arch then some s else getSection rest arch

/-- Replace the binding for `arch` (or append one): the effect of mutating
`config[arch]` in place. -/
def setSection (c : Config) (arch : String) (s : PlatformSection) : Config :=
  match c with
  | [] => [(arch, s)]
  | (a, t) :: rest => if a = arch then (a, s) :: rest else (a, t) :: setSection rest arch s

/-- Lines 448-457 of `check_and_perform_update`: if the architecture
section is missing it is created with the placeholder values
`checksum = ""`, `url = ""`, `version = "N/A"`. -/
def ensureSection (c : Config) (arch : String) : Config :=
  if (getSection c arch).isSome then c
  else setSection c arch ⟨some "", some "", some "N/A"⟩

/-- `config.get(arch, "checksum", fallback="")` (line 462). -/
def storedChecksum (c : Config) (arch : String) : String :=
  ((getSection c arch).bind (fun s => s.checksum)).getD ""

/-- Lines 508-510: `config[arch]` gets the release's checksum, url and
version written into it. -/
def setReleaseFields (c : Config) (arch : String) (ck u v : String) : Config :=
  setSection c arch ⟨some ck, some u, some v⟩

/-- One entry of `computer.Linux.releases` in the API response; each field
the script reads via `.get` may be absent. -/
structure ReleaseEntry where
  build : Option String
  distro : Option String
  url : Option String
  checksum : Option String
deriving DecidableEq

/-- The `computer.Linux` object of the API response: the two keys the
script reads, each possibly absent. -/
structure LinuxInfo where
  version : Option String
  releases : Option (List ReleaseEntry)
deriving DecidableEq

/-- The `computer` object of the API response. -/
structure ComputerInfo where
  linux : Option LinuxInfo
deriving DecidableEq

/-- The parsed API response, restricted to the keys the script reads. -/
structure PlexApiResponse where
  computer : Option ComputerInfo
deriving DecidableEq

/-- The value at `computer.Linux.version`, following the script's
`.get('computer', {}).get('Linux', {}).get('version')` chain. -/
def catalogVersion (r : PlexApiResponse) : Option String :=
  (r.computer.bind (fun c => c.linux)).bind (fun l => l.version)

/-- The value at `computer.Linux.releases`, following the script's
`.get` chain. -/
def catalogReleases (r : PlexApiResponse) : Option (List ReleaseEntry) :=
  (r.computer.bind (fun c => c.linux)).bind (fun l => l.releases)

/-- The structural validation at the end of `fetch_plex_server_info`
(lines 613-627): the parsed response must have a `computer` key, a
non-empty `computer.Linux` object, and both the `version` and `releases`
keys inside it; otherwise the fetch returns `None` (a fetch error).
`true` means the response is returned to the caller as the catalog. -/
def fetch_plex_server_info_valid (r : PlexApiResponse) : Bool :=
  match r.computer with
  | none => false
  | some c =>
    match c.linux with
    | none => false
    | some l => l.version.isSome && l.releases.isSome

/-- The result of `extract_release_info`: the dict
`{url, checksum, version}` built for a matching release. -/
structure ReleaseInfo where
  url : String
  checksum : String
  version : String
deriving DecidableEq

/-- Python truthiness of an optional string value (`if url and checksum`):
present and non-empty. -/
def truthyStr (o : Option String) : Bool :=
  match o with
  | none => false
  | some s => s != ""

/-- The fixed lookup table `build_arch_map` (lines 676-679) from the
architecture choice to the build string used by the Plex API. -/
def build_arch_map (choice : String) : Option String :=
  if choice = "amd64" then some "linux-x86_64"
  else if choice = "armhf" then some "linux-armv7hf"
  else none

/-- The matching condition of the release loop (lines 701-702): the build
string equals the expected one, the distro equals `"debian"`, and both the
url and the checksum are present and non-empty. -/
def matchesRelease (expected : String) (r : ReleaseEntry) : Bool :=
  r.build == some expected && r.distro == some "debian" &&
    truthyStr r.url && truthyStr r.checksum

/-- The release loop of `extract_release_info` (lines 688-717): return
the `{url, checksum, version}` dict for the first matching entry, `none`
when no entry matches. -/
def findRelease (expected : String) (v : String) (rs : List ReleaseEntry) :
    Option ReleaseInfo :=
  match rs with
  | [] => none
  | r :: rest =>
    if matchesRelease expected r then
      some ⟨r.url.getD "", r.checksum.getD "", v⟩
    else findRelease expected v rest

/-- `extract_release_info` (lines 633-717): read the overall version
(falsy version, absent or empty, is an error), map the architecture
choice through `build_arch_map`, and scan the releases for the first
matching entry. -/
def extract_release_info (resp : PlexApiResponse) (choice : String) :
    Option ReleaseInfo :=
  match catalogVersion resp with
  | none => none
  | some v =>
    if v = "" then none
    else
      match build_arch_map choice with
      | none => none
      | some expected =>
        findRelease expected v ((catalogReleases resp).getD [])

/-- The external world of one run as `install_plex` observes it. -/
structure Env where
  /-- The HTTP download of the .deb file raises no exception. -/
  downloadOk : Bool
  /-- The SHA1 digest `calculate_sha1` computes for the downloaded file. -/
  computedDigest : String
  /-- `os.geteuid() == 0`. -/
  isRoot : Bool
  /-- The sudo prompt was answered `yes`. -/
  sudoConfirm : Bool
  /-- The return code of the `gdebi` subprocess. -/
  installerExit : Nat
deriving DecidableEq

/-- How a call to `install_plex` ends: a Python `return b`, or
`sys.exit(code)` terminating the whole process. -/
inductive InstallOutcome where
  | ret (b : Bool)
  | exited (code : Nat)
deriving DecidableEq

/-- The observable result of `install_plex`: how it ended, and whether
the downloaded .deb file still exists after the `finally` cleanup. -/
structure InstallResult where
  outcome : InstallOutcome
  fileExists : Bool
deriving DecidableEq

/-- `install_plex` (lines 54-184).  The branches, in source order: the
dry-run early return; a failed download (`sys.exit(1)`, cleanup deletes
any partial file); checksum mismatch (`sys.exit(1)`, cleanup deletes the
file); the download-only return (file retained); the sudo prompt when not
root (declining unlinks the file and calls `sys.exit(0)`); installer
failure (`sys.exit(1)`, cleanup deletes the file); success (`return True`,
cleanup deletes the file since `download_only` is false). -/
def install_plex (expected_checksum : String) (download_only dry_run : Bool)
    (env : Env) : InstallResult :=
  if dry_run then ⟨.ret true, false⟩
  else if !env.downloadOk then ⟨.exited 1, false⟩
  else if env.computedDigest != expected_checksum then ⟨.exited 1, false⟩
  else if download_only then ⟨.ret true, true⟩
  else if !env.isRoot && !env.sudoConfirm then ⟨.exited 0, false⟩
  else if env.installerExit != 0 then ⟨.exited 1, false⟩
  else ⟨.ret true, false⟩

/-- The checksum comparison of line 479:
`current_checksum_in_config != release_info['checksum']`.
`true` is the update-available branch, `false` the up-to-date branch. -/
def decideUpdate (currentChecksum releaseChecksum : String) : Bool :=
  currentChecksum != releaseChecksum

/-- How a call to `check_and_perform_update` ends: a `sys.exit`
propagating from `install_plex`, or a returned configuration object.
Both carry whether the artifact file exists afterwards. -/
inductive CheckResult where
  | exited (code : Nat) (fileExists : Bool)
  | returned (config : Config) (fileExists : Bool)
deriving DecidableEq

/-- `check_and_perform_update` (lines 413-554): extract the release info
(returning the original config when none is found), ensure the
architecture section exists, compare checksums; on a difference either
return early (dry run, before any config mutation) or write the release's
fields into the config and run `install_plex`. -/
def check_and_perform_update (config : Config) (resp : PlexApiResponse)
    (arch : String) (dry_run download_only : Bool) (env : Env) : CheckResult :=
  match extract_release_info resp arch with
  | none => .returned config false
  | some ri =>
    let config1 := ensureSection config arch
    if decideUpdate (storedChecksum config1 arch) ri.checksum then
      if dry_run then .returned config1 false
      else
        let config2 := setReleaseFields config1 arch ri.checksum ri.url ri.version
        let r := install_plex ri.checksum download_only dry_run env
        match r.outcome with
        | .exited c => .exited c r.fileExists
        | .ret _ => .returned config2 r.fileExists
    else .returned config1 false

/-- The observable result of one run: the process exit code (0 for a
normal completion), whether `save_config` was invoked, the configuration
passed to it, and whether the artifact file exists at the end. -/
structure MainResult where
  exitCode : Nat
  saveCalled : Bool
  savedConfig : Option Config
  fileExists : Bool
deriving DecidableEq

/-- The part of `main` after a successful catalog fetch (lines 396-408):
run `check_and_perform_update`; if it returned (no `sys.exit`), call
`save_config` unless this is a dry run. -/
def main_run (config : Config) (resp : PlexApiResponse) (arch : String)
    (dry_run download_only : Bool) (env : Env) : MainResult :=
  match check_and_perform_update config resp arch dry_run download_only env with
  | .exited c fe => ⟨c, false, none, fe⟩
  | .returned cfg fe =>
    if dry_run then ⟨0, false, none, fe⟩
    else ⟨0, true, some cfg, fe⟩

/-- Whether the run needs an update: a release was selected and its
checksum differs from the stored one.  This is the condition under which
`check_and_perform_update` takes its update branch. -/
def updateNeeded (config : Config) (resp : PlexApiResponse) (arch : String) : Bool :=
  match extract_release_info resp arch with
  | none => false
  | some ri => decideUpdate (storedChecksum (ensureSection config arch) arch) ri.checksum

/-- The update decision of a run, when a release was selected: `some true`
is update-available, `some false` is up-to-date, `none` is no release. -/
def runDecision (config : Config) (resp : PlexApiResponse) (arch : String) :
    Option Bool :=
  (extract_release_info resp arch).map
    (fun ri => decideUpdate (storedChecksum (ensureSection config arch) arch) ri.checksum)

/-- The selected release was downloaded and its computed digest equals the
release's expected checksum. -/
def downloadVerifyOk (resp : PlexApiResponse) (arch : String) (env : Env) : Prop :=
  ∃ ri, extract_release_info resp arch = some ri ∧
    env.downloadOk = true ∧ env.computedDigest = ri.checksum

/-! ### Helper lemmas about the configuration operations -/

theorem getSection_setSection_self (c : Config) (arch : String) (s : PlatformSection) :
    getSection (setSection c arch s) arch = some s := by
  induction c with
  | nil => simp [setSection, getSection]
  | cons hd tl ih =>
    obtain ⟨a, t⟩ := hd
    by_cases ha : a = arch
    · simp [setSection, getSection, ha]
    · simp [setSection, getSection, ha, ih]

theorem storedChecksum_ensureSection (c : Config) (arch : String) :
    storedChecksum (ensureSection c arch) arch = storedChecksum c arch := by
  unfold ensureSection storedChecksum
  cases h : getSection c arch with
  | none => simp [h, getSection_setSection_self]
  | some s => simp [h]

theorem getSection_ensureSection_none (c : Config) (arch : String)
    (h : getSection c arch = none) :
    getSection (ensureSection c arch) arch = some ⟨some "", some "", some "N/A"⟩ := by
  unfold ensureSection
  simp [h, getSection_setSection_self]

theorem getSection_setReleaseFields (c : Config) (arch : String) (ck u v : String) :
    getSection (setReleaseFields c arch ck u v) arch = some ⟨some ck, some u, some v⟩ := by
  unfold setReleaseFields
  exact getSection_setSection_self c arch _

/-! ### Helper lemmas about release extraction -/

theorem findRelease_eq_find (expected v : String) (rs : List ReleaseEntry) :
    findRelease expected v rs =
      (rs.find? (fun r => matchesRelease expected r)).map
        (fun r => ⟨r.url.getD "", r.checksum.getD "", v⟩) := by
  induction rs with
  | nil => simp [findRelease]
  | cons r rest ih =>
    by_cases h : matchesRelease expected r
    · simp [findRelease, h, List.find?_cons_of_pos]
    · simp only [Bool.not_eq_true] at h
      simp [findRelease, h, List.find?_cons_of_neg, ih]

theorem truthyStr_getD_ne_empty (o : Option String) (h : truthyStr o = true) :
    o.getD "" ≠ "" := by
  cases o with
  | none => simp [truthyStr] at h
  | some s =>
    simp only [truthyStr, bne_iff_ne, ne_eq] at h
    simpa using h

theorem extract_release_info_checksum_ne_empty (resp : PlexApiResponse)
    (choice : String) (ri : ReleaseInfo)
    (h : extract_release_info resp choice = some ri) : ri.checksum ≠ "" := by
  cases hv : catalogVersion resp with
  | none => simp [extract_release_info, hv] at h
  | some v =>
    simp only [extract_release_info, hv] at h
    by_cases hve : v = ""
    · simp [hve] at h
    · rw [if_neg hve] at h
      cases hb : build_arch_map choice with
      | none => simp [hb] at h
      | some expected =>
        simp only [hb, findRelease_eq_find] at h
        cases hf : ((catalogReleases resp).getD []).find?
            (fun r => matchesRelease expected r) with
        | none => simp [hf] at h
        | some r =>
          rw [hf] at h
          have hm : matchesRelease expected r = true := List.find?_some hf
          have hck : truthyStr r.checksum = true := by
            unfold matchesRelease at hm
            simp only [Bool.and_eq_true] at hm
            exact hm.2
          have hne := truthyStr_getD_ne_empty r.checksum hck
          have hri : ri = ⟨r.url.getD "", r.checksum.getD "", v⟩ := by
            simpa using h.symm
          rw [hri]
          simpa using hne

/-! ### Concrete fixtures (used by witnesses and counterexamples) -/

/-- The release entry of the scenario in the spec: build
`linux-x86_64`, distro `debian`, url `http://x/pkg.deb`, checksum `BBB`. -/
def entryA : ReleaseEntry :=
  ⟨some "linux-x86_64", some "debian", some "http://x/pkg.deb", some "BBB"⟩

/-- An API response whose catalog lists exactly `entryA` at version 1.1. -/
def respA : PlexApiResponse := ⟨some ⟨some ⟨some "1.1", some [entryA]⟩⟩⟩

/-- The release info extracted from `respA` for amd64. -/
def riA : ReleaseInfo := ⟨"http://x/pkg.deb", "BBB", "1.1"⟩

/-- A stored configuration with an older record for amd64. -/
def cfgA : Config := [("amd64", ⟨some "AAA", some "http://old", some "1.0"⟩)]

/-- A run where the download succeeds, the digest matches `BBB`, the
process is root, and the installer exits 0. -/
def envInstallOk : Env := ⟨true, "BBB", true, false, 0⟩

/-- Same as `envInstallOk` but the installer exits 1. -/
def envInstallFail : Env := ⟨true, "BBB", true, false, 1⟩

/-- Same as `envInstallOk` but the computed digest is `XXX`, not `BBB`. -/
def envBadDigest : Env := ⟨true, "XXX", true, false, 0⟩

/-! ### The claims -/

/-- C2: in DryRun mode `save_config` is never invoked and no configuration
is handed to it, for every configuration, catalog response, architecture,
download-only flag and environment (covering both the update-available and
the no-update branch). -/
theorem C2_dry_run_never_saves (config : Config) (resp : PlexApiResponse)
    (arch : String) (download_only : Bool) (env : Env) :
    (main_run config resp arch true download_only env).saveCalled = false ∧
    (main_run config resp arch true download_only env).savedConfig = none := by
  cases h : check_and_perform_update config resp arch true download_only env <;>
    simp [main_run, h]

/-- C3: in any non-DryRun run where a release was selected, an update is
needed, the download succeeds and the computed digest differs from the
release's expected checksum, the run exits with code 1, `save_config` is
never invoked (the persisted record is unchanged), and the artifact file
is removed. -/
theorem C3_checksum_mismatch_aborts (config : Config) (resp : PlexApiResponse)
    (arch : String) (download_only : Bool) (env : Env) (ri : ReleaseInfo)
    (hex : extract_release_info resp arch = some ri)
    (hupd : storedChecksum config arch ≠ ri.checksum)
    (hdl : env.downloadOk = true)
    (hdig : env.computedDigest ≠ ri.checksum) :
    main_run config resp arch false download_only env = ⟨1, false, none, false⟩ := by
  simp [main_run, check_and_perform_update, hex, decideUpdate,
    storedChecksum_ensureSection, install_plex, hdl, hdig, hupd, bne_iff_ne]

/-- C3 witness: the scenario with stored checksum `AAA`, release checksum
`BBB` and computed digest `XXX`. -/
theorem C3_checksum_mismatch_aborts_witness :
    extract_release_info respA "amd64" = some riA ∧
    storedChecksum cfgA "amd64" ≠ riA.checksum ∧
    envBadDigest.downloadOk = true ∧
    envBadDigest.computedDigest ≠ riA.checksum ∧
    main_run cfgA respA "amd64" false false envBadDigest = ⟨1, false, none, false⟩ :=
  ⟨by decide, by decide, by decide, by decide,
    C3_checksum_mismatch_aborts cfgA respA "amd64" false envBadDigest riA
      (by decide) (by decide) (by decide) (by decide)⟩

/-- C4: in a Normal-mode run where a release was selected, an update is
needed, download and checksum verification succeed, installation was
consented to, but the installer exits non-zero, the run exits with code 1
and `save_config` is never invoked, so the stale record is preserved. -/
theorem C4_install_failure_preserves_record (config : Config)
    (resp : PlexApiResponse) (arch : String) (env : Env) (ri : ReleaseInfo)
    (hex : extract_release_info resp arch = some ri)
    (hupd : storedChecksum config arch ≠ ri.checksum)
    (hdl : env.downloadOk = true)
    (hdig : env.computedDigest = ri.checksum)
    (hconsent : env.isRoot = true ∨ env.sudoConfirm = true)
    (hfail : env.installerExit ≠ 0) :
    main_run config resp arch false false env = ⟨1, false, none, false⟩ := by
  rcases hconsent with hc | hc <;>
    simp [main_run, check_and_perform_update, hex, decideUpdate,
      storedChecksum_ensureSection, install_plex, hdl, hdig, hupd, hc, hfail,
      bne_iff_ne]

/-- C4 witness: the spec's scenario with installer exit code 1. -/
theorem C4_install_failure_preserves_record_witness :
    extract_release_info respA "amd64" = some riA ∧
    storedChecksum cfgA "amd64" ≠ riA.checksum ∧
    envInstallFail.computedDigest = riA.checksum ∧
    envInstallFail.installerExit ≠ 0 ∧
    main_run cfgA respA "amd64" false false envInstallFail = ⟨1, false, none, false⟩ :=
  ⟨by decide, by decide, by decide, by decide,
    C4_install_failure_preserves_record cfgA respA "amd64" envInstallFail riA
      (by decide) (by decide) (by decide) (by decide) (Or.inl (by decide)) (by decide)⟩

/-- C5: in a Normal-mode run where the stored checksum differs from the
selected release's checksum, the download succeeds with a matching digest,
installation was consented to and the installer exits 0, the run exits 0,
`save_config` is invoked, and the saved configuration's section for the
architecture holds exactly the release's checksum, url and version. -/
theorem C5_successful_update_persists_release (config : Config)
    (resp : PlexApiResponse) (arch : String) (env : Env) (ri : ReleaseInfo)
    (hex : extract_release_info resp arch = some ri)
    (hupd : storedChecksum config arch ≠ ri.checksum)
    (hdl : env.downloadOk = true)
    (hdig : env.computedDigest = ri.checksum)
    (hconsent : env.isRoot = true ∨ env.sudoConfirm = true)
    (hok : env.installerExit = 0) :
    (main_run config resp arch false false env).exitCode = 0 ∧
    (main_run config resp arch false false env).saveCalled = true ∧
    ∃ cfg2, (main_run config resp arch false false env).savedConfig = some cfg2 ∧
      getSection cfg2 arch = some ⟨some ri.checksum, some ri.url, some ri.version⟩ := by
  have hmain : main_run config resp arch false false env =
      ⟨0, true,
        some (setReleaseFields (ensureSection config arch) arch ri.checksum ri.url ri.version),
        false⟩ := by
    rcases hconsent with hc | hc <;>
      simp [main_run, check_and_perform_update, hex, decideUpdate,
        storedChecksum_ensureSection, install_plex, hdl, hdig, hupd, hc, hok,
        bne_iff_ne]
  refine ⟨by rw [hmain], by rw [hmain],
    setReleaseFields (ensureSection config arch) arch ri.checksum ri.url ri.version,
    by rw [hmain], getSection_setReleaseFields _ _ _ _ _⟩

/-- C5 witness: the spec's scenario, stored `{1.0, AAA}`, release
`{1.1, BBB, http://x/pkg.deb}`, digest `BBB`, installer exit 0. -/
theorem C5_successful_update_persists_release_witness :
    extract_release_info respA "amd64" = some riA ∧
    storedChecksum cfgA "amd64" ≠ riA.checksum ∧
    envInstallOk.computedDigest = riA.checksum ∧
    envInstallOk.installerExit = 0 ∧
    ((main_run cfgA respA "amd64" false false envInstallOk).exitCode = 0 ∧
      (main_run cfgA respA "amd64" false false envInstallOk).saveCalled = true ∧
      ∃ cfg2, (main_run cfgA respA "amd64" false false envInstallOk).savedConfig = some cfg2 ∧
        getSection cfg2 "amd64" = some ⟨some riA.checksum, some riA.url, some riA.version⟩) :=
  ⟨by decide, by decide, by decide, by decide,
    C5_successful_update_persists_release cfgA respA "amd64" envInstallOk riA
      (by decide) (by decide) (by decide) (by decide) (Or.inl (by decide)) (by decide)⟩

/-- C6: the update decision is determined solely by checksum equality.
Equal stored and release checksums decide no-update (`some false`),
different ones decide update-available (`some true`); and any two runs
whose stored checksums and selected releases' checksums agree decide
identically, whatever the version strings of the record or the release
are (version strings are never compared). -/
theorem C6_decision_by_checksum_only (config config2 : Config)
    (resp resp2 : PlexApiResponse) (arch : String) (ri ri2 : ReleaseInfo)
    (hex : extract_release_info resp arch = some ri)
    (hex2 : extract_release_info resp2 arch = some ri2)
    (hck : ri2.checksum = ri.checksum)
    (hst : storedChecksum config2 arch = storedChecksum config arch) :
    (storedChecksum config arch = ri.checksum →
      runDecision config resp arch = some false) ∧
    (storedChecksum config arch ≠ ri.checksum →
      runDecision config resp arch = some true) ∧
    runDecision config2 resp2 arch = runDecision config resp arch := by
  refine ⟨?_, ?_, ?_⟩
  · intro he
    simp [runDecision, hex, decideUpdate, storedChecksum_ensureSection, he]
  · intro hne
    simp [runDecision, hex, decideUpdate, storedChecksum_ensureSection,
      bne_iff_ne, hne]
  · simp [runDecision, hex, hex2, decideUpdate, storedChecksum_ensureSection,
      hck, hst]

/-- C6 witness: stored checksum `AAA` against release checksum `BBB`
decides update-available, and a record/release pair with different
version strings but the same checksums decides identically. -/
theorem C6_decision_by_checksum_only_witness :
    (storedChecksum cfgA "amd64" ≠ riA.checksum →
      runDecision cfgA respA "amd64" = some true) ∧
    runDecision [("amd64", ⟨some "AAA", some "http://old", some "9.9"⟩)]
      ⟨some ⟨some ⟨some "7.7", some [entryA]⟩⟩⟩ "amd64" =
      runDecision cfgA respA "amd64" :=
  ⟨(C6_decision_by_checksum_only cfgA
      [("amd64", ⟨some "AAA", some "http://old", some "9.9"⟩)]
      respA ⟨some ⟨some ⟨some "7.7", some [entryA]⟩⟩⟩ "amd64"
      riA ⟨"http://x/pkg.deb", "BBB", "7.7"⟩
      (by decide) (by decide) (by decide) (by decide)).2.1,
   (C6_decision_by_checksum_only cfgA
      [("amd64", ⟨some "AAA", some "http://old", some "9.9"⟩)]
      respA ⟨some ⟨some ⟨some "7.7", some [entryA]⟩⟩⟩ "amd64"
      riA ⟨"http://x/pkg.deb", "BBB", "7.7"⟩
      (by decide) (by decide) (by decide) (by decide)).2.2⟩

/-- C7: release selection maps the architecture through the fixed lookup
table `build_arch_map` and then returns, for the catalog's release list,
the first entry satisfying `matchesRelease` (build id matches, distro is
`debian`, url and checksum present and non-empty), packaged with the
catalog's overall version; when no entry satisfies the predicate the
result is `none` (not found, not an error). -/
theorem C7_release_selection_first_match (resp : PlexApiResponse)
    (arch b v : String) (rs : List ReleaseEntry)
    (hb : build_arch_map arch = some b)
    (hv : catalogVersion resp = some v) (hvne : v ≠ "")
    (hrs : catalogReleases resp = some rs) :
    extract_release_info resp arch =
      (rs.find? (fun r => matchesRelease b r)).map
        (fun r => ⟨r.url.getD "", r.checksum.getD "", v⟩) ∧
    ((∀ r ∈ rs, matchesRelease b r = false) →
      extract_release_info resp arch = none) := by
  have h1 : extract_release_info resp arch =
      (rs.find? (fun r => matchesRelease b r)).map
        (fun r => ⟨r.url.getD "", r.checksum.getD "", v⟩) := by
    simp [extract_release_info, hv, hvne, hb, hrs, findRelease_eq_find]
  refine ⟨h1, fun hall => ?_⟩
  have hfind : rs.find? (fun r => matchesRelease b r) = none := by
    rw [List.find?_eq_none]
    intro r hr
    simp [hall r hr]
  rw [h1, hfind]
  rfl

/-- C7 witness: for `respA` and amd64 the first (only) entry matches and
is selected; for a catalog whose entry has an empty checksum nothing is
selected. -/
theorem C7_release_selection_first_match_witness :
    extract_release_info respA "amd64" =
      ([entryA].find? (fun r => matchesRelease "linux-x86_64" r)).map
        (fun r => ⟨r.url.getD "", r.checksum.getD "", "1.1"⟩) ∧
    ((∀ r ∈ [entryA], matchesRelease "linux-x86_64" r = false) →
      extract_release_info respA "amd64" = none) :=
  C7_release_selection_first_match respA "amd64" "linux-x86_64" "1.1" [entryA]
    (by decide) (by decide) (by decide) (by decide)

/-- An API response whose `computer.Linux` object carries a version and an
empty release list. -/
def respEmptyReleases : PlexApiResponse := ⟨some ⟨some ⟨some "1.2.3", some []⟩⟩⟩

/-- C9 counterexample: a parsed response whose release list is present but
empty passes the fetch validation (the catalog is returned, no fetch
error), contradicting the claim that an empty release list yields a fetch
error. -/
theorem C9_counterexample :
    catalogReleases respEmptyReleases = some [] ∧
    fetch_plex_server_info_valid respEmptyReleases = true := by decide

/-- C9 (amended): the fetch validation accepts a parsed response exactly
when the `computer.Linux.version` and `computer.Linux.releases` keys are
both reachable and present — presence of the `releases` key only, not
non-emptiness, is checked, so an empty release list passes validation;
an empty release list then makes release selection return `none`
(not found) for every architecture. -/
theorem C9_fetch_validation_amended (r : PlexApiResponse) :
    (fetch_plex_server_info_valid r = true ↔
      (catalogVersion r).isSome ∧ (catalogReleases r).isSome) ∧
    (∀ arch, catalogReleases r = some [] → extract_release_info r arch = none) := by
  constructor
  · obtain ⟨comp⟩ := r
    cases comp with
    | none => simp [fetch_plex_server_info_valid, catalogVersion, catalogReleases]
    | some c =>
      obtain ⟨lin⟩ := c
      cases lin with
      | none => simp [fetch_plex_server_info_valid, catalogVersion, catalogReleases]
      | some l =>
        simp [fetch_plex_server_info_valid, catalogVersion, catalogReleases]
  · intro arch hrel
    cases hv : catalogVersion r with
    | none => simp [extract_release_info, hv]
    | some v =>
      simp only [extract_release_info, hv]
      by_cases hve : v = ""
      · simp [hve]
      · rw [if_neg hve]
        cases hbm : build_arch_map arch with
        | none => simp
        | some b => simp [hrel, findRelease]

/-- C10: when the configuration has no section for the architecture and a
release was selected, the selected release's checksum is non-empty, the
section is created with the placeholder values `checksum = ""`,
`url = ""`, `version = "N/A"`, and the run decides update-available (the
empty placeholder checksum never equals the release's checksum). -/
theorem C10_first_run_decides_update (config : Config)
    (resp : PlexApiResponse) (arch : String) (ri : ReleaseInfo)
    (hex : extract_release_info resp arch = some ri)
    (hnone : getSection config arch = none) :
    ri.checksum ≠ "" ∧
    getSection (ensureSection config arch) arch = some ⟨some "", some "", some "N/A"⟩ ∧
    runDecision config resp arch = some true := by
  have hck := extract_release_info_checksum_ne_empty resp arch ri hex
  refine ⟨hck, getSection_ensureSection_none config arch hnone, ?_⟩
  have hst : storedChecksum (ensureSection config arch) arch = "" := by
    simp [storedChecksum, getSection_ensureSection_none config arch hnone]
  simp [runDecision, hex, decideUpdate, hst, bne_iff_ne]
  exact fun h => hck h.symm

/-- C10 witness: an empty configuration and the catalog `respA`. -/
theorem C10_first_run_decides_update_witness :
    riA.checksum ≠ "" ∧
    getSection (ensureSection [] "amd64") "amd64" = some ⟨some "", some "", some "N/A"⟩ ∧
    runDecision [] respA "amd64" = some true :=
  C10_first_run_decides_update [] respA "amd64" riA (by decide) (by decide)

/-! ### Characterizations of the full run (shared by C1 and C8) -/

theorem main_run_save_characterization (config : Config)
    (resp : PlexApiResponse) (arch : String) (dry_run download_only : Bool)
    (env : Env) :
    (main_run config resp arch dry_run download_only env).saveCalled = true ↔
      (dry_run = false ∧
        (updateNeeded config resp arch = false ∨
          (downloadVerifyOk resp arch env ∧
            (download_only = true ∨
              ((env.isRoot = true ∨ env.sudoConfirm = true) ∧
                env.installerExit = 0))))) := by
  obtain ⟨dlOk, dig, root, sd, iexit⟩ := env
  cases h : extract_release_info resp arch with
  | none =>
    cases dry_run <;>
      simp [main_run, check_and_perform_update, h, updateNeeded, downloadVerifyOk]
  | some ri =>
    cases hd : decideUpdate (storedChecksum (ensureSection config arch) arch)
        ri.checksum with
    | false =>
      cases dry_run <;>
        simp [main_run, check_and_perform_update, h, hd, updateNeeded,
          downloadVerifyOk]
    | true =>
      cases dry_run with
      | true =>
        simp [main_run, check_and_perform_update, h, hd, updateNeeded]
      | false =>
        cases dlOk with
        | false =>
          simp [main_run, check_and_perform_update, install_plex, h, hd,
            updateNeeded, downloadVerifyOk]
        | true =>
          by_cases hdig : dig = ri.checksum
          case neg =>
            simp [main_run, check_and_perform_update, install_plex, h, hd,
              updateNeeded, downloadVerifyOk, hdig, bne_iff_ne]
          case pos =>
            cases download_only with
            | true =>
              simp [main_run, check_and_perform_update, install_plex, h, hd,
                updateNeeded, downloadVerifyOk, hdig]
            | false =>
              cases root with
              | false =>
                cases sd with
                | false =>
                  simp [main_run, check_and_perform_update, install_plex, h,
                    hd, updateNeeded, downloadVerifyOk, hdig]
                | true =>
                  by_cases hie : iexit = 0 <;>
                    simp [main_run, check_and_perform_update, install_plex, h,
                      hd, updateNeeded, downloadVerifyOk, hdig, hie, bne_iff_ne]
              | true =>
                by_cases hie : iexit = 0 <;>
                  simp [main_run, check_and_perform_update, install_plex, h,
                    hd, updateNeeded, downloadVerifyOk, hdig, hie, bne_iff_ne]

theorem main_run_saved_update_characterization (config : Config)
    (resp : PlexApiResponse) (arch : String) (dry_run download_only : Bool)
    (env : Env) (cfg2 : Config) (ri : ReleaseInfo)
    (hex : extract_release_info resp arch = some ri)
    (hupd : updateNeeded config resp arch = true)
    (hsave : (main_run config resp arch dry_run download_only env).savedConfig =
      some cfg2) :
    cfg2 = setReleaseFields (ensureSection config arch) arch
      ri.checksum ri.url ri.version ∧
    env.computedDigest = ri.checksum := by
  obtain ⟨dlOk, dig, root, sd, iexit⟩ := env
  have hd : decideUpdate (storedChecksum (ensureSection config arch) arch)
      ri.checksum = true := by
    simpa [updateNeeded, hex] using hupd
  cases dry_run with
  | true => simp [main_run, check_and_perform_update, hex, hd] at hsave
  | false =>
    cases dlOk with
    | false =>
      simp [main_run, check_and_perform_update, install_plex, hex, hd] at hsave
    | true =>
      by_cases hdig : dig = ri.checksum
      case neg =>
        simp [main_run, check_and_perform_update, install_plex, hex, hd, hdig,
          bne_iff_ne] at hsave
      case pos =>
        cases download_only with
        | true =>
          simp [main_run, check_and_perform_update, install_plex, hex, hd,
            hdig] at hsave
          exact ⟨hsave.symm, hdig⟩
        | false =>
          cases root with
          | false =>
            cases sd with
            | false =>
              simp [main_run, check_and_perform_update, install_plex, hex, hd,
                hdig] at hsave
            | true =>
              by_cases hie : iexit = 0
              case pos =>
                simp [main_run, check_and_perform_update, install_plex, hex,
                  hd, hdig, hie] at hsave
                exact ⟨hsave.symm, hdig⟩
              case neg =>
                simp [main_run, check_and_perform_update, install_plex, hex,
                  hd, hdig, hie, bne_iff_ne] at hsave
          | true =>
            by_cases hie : iexit = 0
            case pos =>
              simp [main_run, check_and_perform_update, install_plex, hex,
                hd, hdig, hie] at hsave
              exact ⟨hsave.symm, hdig⟩
            case neg =>
              simp [main_run, check_and_perform_update, install_plex, hex,
                hd, hdig, hie, bne_iff_ne] at hsave

/-- C1 counterexample: a Normal-mode run (not DryRun) in which the
update's download and checksum verification succeeded (the download
worked and the computed digest equals the release checksum `BBB`) but the
installer exited 1: `save_config` is not invoked, refuting the claimed
if-and-only-if condition for persistence at this input. -/
theorem C1_counterexample :
    extract_release_info respA "amd64" = some riA ∧
    envInstallFail.downloadOk = true ∧
    envInstallFail.computedDigest = riA.checksum ∧
    (main_run cfgA respA "amd64" false false envInstallFail).saveCalled = false := by
  decide

/-- C1 (amended): the record is persisted (`save_config` invoked) iff the
run is not DryRun and (no update was needed, or the update's download and
checksum verification succeeded and additionally either the run is
DownloadOnly or the installation was consented to and the installer
exited 0); and whenever a record is persisted after an update, its
checksum field equals the digest actually computed for the downloaded
artifact. -/
theorem C1_persistence_amended (config : Config) (resp : PlexApiResponse)
    (arch : String) (dry_run download_only : Bool) (env : Env) :
    ((main_run config resp arch dry_run download_only env).saveCalled = true ↔
      (dry_run = false ∧
        (updateNeeded config resp arch = false ∨
          (downloadVerifyOk resp arch env ∧
            (download_only = true ∨
              ((env.isRoot = true ∨ env.sudoConfirm = true) ∧
                env.installerExit = 0)))))) ∧
    (∀ cfg2,
      (main_run config resp arch dry_run download_only env).savedConfig = some cfg2 →
      updateNeeded config resp arch = true →
      ∃ s, getSection cfg2 arch = some s ∧
        s.checksum = some env.computedDigest) := by
  refine ⟨main_run_save_characterization config resp arch dry_run download_only env, ?_⟩
  intro cfg2 hsave hupd
  cases hex : extract_release_info resp arch with
  | none => simp [updateNeeded, hex] at hupd
  | some ri =>
    obtain ⟨hcfg, hdig⟩ := main_run_saved_update_characterization config resp
      arch dry_run download_only env cfg2 ri hex hupd hsave
    refine ⟨⟨some ri.checksum, some ri.url, some ri.version⟩, ?_, ?_⟩
    · rw [hcfg]
      exact getSection_setReleaseFields _ _ _ _ _
    · rw [hdig]

/-- C8: the artifact file exists after the run exactly when the run is a
successful DownloadOnly run: not DryRun, DownloadOnly, an update was
needed, and the download and checksum verification succeeded.  In every
other run that downloads the artifact — checksum mismatch, declined
escalation, installer failure, successful Normal-mode install — the file
is gone at the end. -/
theorem C8_artifact_retained_iff_download_only (config : Config)
    (resp : PlexApiResponse) (arch : String) (dry_run download_only : Bool)
    (env : Env) :
    (main_run config resp arch dry_run download_only env).fileExists = true ↔
      (dry_run = false ∧ download_only = true ∧
        updateNeeded config resp arch = true ∧
        downloadVerifyOk resp arch env) := by
  obtain ⟨dlOk, dig, root, sd, iexit⟩ := env
  cases h : extract_release_info resp arch with
  | none =>
    cases dry_run <;>
      simp [main_run, check_and_perform_update, h, updateNeeded, downloadVerifyOk]
  | some ri =>
    cases hd : decideUpdate (storedChecksum (ensureSection config arch) arch)
        ri.checksum with
    | false =>
      cases dry_run <;>
        simp [main_run, check_and_perform_update, h, hd, updateNeeded,
          downloadVerifyOk]
    | true =>
      cases dry_run with
      | true =>
        simp [main_run, check_and_perform_update, h, hd, updateNeeded]
      | false =>
        cases dlOk with
        | false =>
          simp [main_run, check_and_perform_update, install_plex, h, hd,
            updateNeeded, downloadVerifyOk]
        | true =>
          by_cases hdig : dig = ri.checksum
          case neg =>
            simp [main_run, check_and_perform_update, install_plex, h, hd,
              updateNeeded, downloadVerifyOk, hdig, bne_iff_ne]
          case pos =>
            cases download_only with
            | true =>
              simp [main_run, check_and_perform_update, install_plex, h, hd,
                updateNeeded, downloadVerifyOk, hdig]
            | false =>
              cases root with
              | false =>
                cases sd with
                | false =>
                  simp [main_run, check_and_perform_update, install_plex, h,
                    hd, updateNeeded, downloadVerifyOk, hdig]
                | true =>
                  by_cases hie : iexit = 0 <;>
                    simp [main_run, check_and_perform_update, install_plex, h,
                      hd, updateNeeded, downloadVerifyOk, hdig, hie, bne_iff_ne]
              | true =>
                by_cases hie : iexit = 0 <;>
                  simp [main_run, check_and_perform_update, install_plex, h,
                    hd, updateNeeded, downloadVerifyOk, hdig, hie, bne_iff_ne]
